import Mathlib

/-!
Shallow embedding of the Clinical-Data-Agent guardrail core:
`src/agents/guardrails.py` (rule functions and `apply_guardrails`) and
`src/audit/logger.py` (`create_audit_log`), over the record schema of
`src/models/redcap_form.py` / `src/agents/extractor.py`.

Python `None` becomes `Option.none`; Python dicts that the code iterates
in insertion order become association lists in that order; the wall-clock
reads (`datetime.now()`) and the `USE_MOCK_GEMINI` environment flag become
explicit parameters (`now`, `mock`), since they are ambient inputs of the
Python functions.
-/

namespace ClinicalDataAgent

/-- `strStarts sub s`: `sub` is a prefix of the character list `s`. -/
def strStarts : List Char → List Char → Bool
  | [], _ => true
  | _ :: _, [] => false
  | a :: as, b :: bs => a == b && strStarts as bs

/-- `strContains sub s`: `sub` occurs contiguously somewhere in `s`. -/
def strContains (sub : List Char) : List Char → Bool
  | [] => strStarts sub []
  | c :: cs => strStarts sub (c :: cs) || strContains sub cs

/-- Python's substring test `sub in s`. -/
def pyIn (sub s : String) : Bool := strContains sub.data s.data

/-- Python's `str.lower()` (ASCII case mapping, as in every source
string this program compares). -/
def pyLower (s : String) : String := ⟨s.data.map Char.toLower⟩

/-! ### Data model (src/models/redcap_form.py, src/agents/extractor.py) -/

structure TimelineForm where
  date_of_diagnosis : Option String := none
  date_of_last_visit : Option String := none
  date_of_last_scan : Option String := none
  date_of_death : Option String := none
deriving DecidableEq

structure StagingForm where
  primary_cancer : Option String := none
  laterality : Option String := none
  t_stage : Option String := none
  n_stage : Option String := none
  m_stage : Option String := none
  overall_stage : Option String := none
  metastasis : Option String := none
deriving DecidableEq

structure PathologyFindings where
  specimen_site : Option String := none
  quadrant : Option String := none
  er_status : Option String := none
  pr_status : Option String := none
  her2_status : Option String := none
  ki67_percentage : Option String := none
  grade : Option String := none
  diagnosis : Option String := none
deriving DecidableEq

structure ComorbidityForm where
  hypertension : Option String := none
  diabetes : Option String := none
  hypothyroidism : Option String := none
  other : Option String := none
deriving DecidableEq

structure GermlineForm where
  brca1_status : Option String := none
  brca2_status : Option String := none
  variant_found : Option String := none
  classification : Option String := none
deriving DecidableEq

structure MedicationForm where
  line_of_treatment : Option String := none
  intent : Option String := none
  regimen : Option String := none
  drugs : Option String := none
deriving DecidableEq

/-- The extracted record: patient id plus the six fixed sections
(`REDCapForm` in src/models/redcap_form.py; same shape as the dict built
by `extract_clinical_data`). -/
structure ExtractedRecord where
  patient_id : String
  timeline : TimelineForm := {}
  staging : StagingForm := {}
  pathology : PathologyFindings := {}
  comorbidities : ComorbidityForm := {}
  germline : GermlineForm := {}
  medications : MedicationForm := {}
deriving DecidableEq

/-- The record as the ordered `(section, [(field, value)])` association list
that `create_audit_log` iterates over (`extracted.items()` minus
`patient_id`, in the dict insertion order of `extract_clinical_data`). -/
def ExtractedRecord.toSections (r : ExtractedRecord) :
    List (String × List (String × Option String)) :=
  [("timeline",
     [("date_of_diagnosis", r.timeline.date_of_diagnosis),
      ("date_of_last_visit", r.timeline.date_of_last_visit),
      ("date_of_last_scan", r.timeline.date_of_last_scan),
      ("date_of_death", r.timeline.date_of_death)]),
   ("staging",
     [("primary_cancer", r.staging.primary_cancer),
      ("laterality", r.staging.laterality),
      ("t_stage", r.staging.t_stage),
      ("n_stage", r.staging.n_stage),
      ("m_stage", r.staging.m_stage),
      ("overall_stage", r.staging.overall_stage),
      ("metastasis", r.staging.metastasis)]),
   ("pathology",
     [("specimen_site", r.pathology.specimen_site),
      ("quadrant", r.pathology.quadrant),
      ("er_status", r.pathology.er_status),
      ("pr_status", r.pathology.pr_status),
      ("her2_status", r.pathology.her2_status),
      ("ki67_percentage", r.pathology.ki67_percentage),
      ("grade", r.pathology.grade),
      ("diagnosis", r.pathology.diagnosis)]),
   ("comorbidities",
     [("hypertension", r.comorbidities.hypertension),
      ("diabetes", r.comorbidities.diabetes),
      ("hypothyroidism", r.comorbidities.hypothyroidism),
      ("other", r.comorbidities.other)]),
   ("germline",
     [("brca1_status", r.germline.brca1_status),
      ("brca2_status", r.germline.brca2_status),
      ("variant_found", r.germline.variant_found),
      ("classification", r.germline.classification)]),
   ("medications",
     [("line_of_treatment", r.medications.line_of_treatment),
      ("intent", r.medications.intent),
      ("regimen", r.medications.regimen),
      ("drugs", r.medications.drugs)])]

/-! ### Audit-trail builder (src/audit/logger.py, `create_audit_log`) -/

/-- One entry of `audit["fields"]`. -/
structure AuditField where
  field : String
  value : Option String
  status : String
  confidence : String
  source_document : String
  rule_applied : String
deriving DecidableEq

structure AuditSummary where
  total_fields : Nat
  populated : Nat
  empty : Nat
  completion_rate : String
deriving DecidableEq

structure AuditLog where
  patient_id : String
  processed_at : String
  mode : String
  fields : List AuditField
  summary : AuditSummary
deriving DecidableEq

/-- `field_rules` dict of `create_audit_log`. -/
def field_rules : List (String × String) :=
  [("timeline.date_of_diagnosis", "RULE 008 - Date of diagnosis = pathology confirmation date only"),
   ("timeline.date_of_last_visit", "RULE 008 - Most recent visit date from MD notes"),
   ("timeline.date_of_last_scan", "RULE 008 - Most recent imaging date from radiology"),
   ("timeline.date_of_death", "RULE 008 - Date of death from patient record"),
   ("staging.primary_cancer", "RULE 004 - Cancer type confirmed by pathology"),
   ("staging.laterality", "RULE 002 - Laterality from pathology and imaging"),
   ("staging.t_stage", "RULE 004 - T stage confirmed by imaging AND MD note"),
   ("staging.n_stage", "RULE 004 - N stage confirmed by imaging AND MD note"),
   ("staging.m_stage", "RULE 004 - M stage confirmed by PET-CT"),
   ("staging.overall_stage", "RULE 004 - Stage group from TNM combination"),
   ("staging.metastasis", "RULE 009 - Metastasis confirmed by PET-CT + MD documentation"),
   ("pathology.specimen_site", "RULE 002 - Specimen site from pathology report"),
   ("pathology.quadrant", "RULE 002 - Quadrant from pathology report"),
   ("pathology.er_status", "RULE 003 - ER status from IHC in pathology report"),
   ("pathology.pr_status", "RULE 003 - PR status from IHC in pathology report"),
   ("pathology.her2_status", "RULE 003 - HER2 status from IHC/FISH in pathology report"),
   ("pathology.ki67_percentage", "RULE 003 - Ki67 from pathology report"),
   ("pathology.grade", "RULE 003 - Grade from pathology report"),
   ("pathology.diagnosis", "RULE 003 - Full diagnosis from pathology report"),
   ("comorbidities.hypertension", "RULE 001 - ONLY from MD note within first 3-6 months"),
   ("comorbidities.diabetes", "RULE 001 - ONLY from MD note within first 3-6 months"),
   ("comorbidities.hypothyroidism", "RULE 001 - ONLY from MD note within first 3-6 months"),
   ("comorbidities.other", "RULE 001 - ONLY from MD note within first 3-6 months"),
   ("germline.brca1_status", "RULE 005 - ONLY from official genetic testing report"),
   ("germline.brca2_status", "RULE 005 - ONLY from official genetic testing report"),
   ("germline.variant_found", "RULE 005 - ONLY from official genetic testing report"),
   ("germline.classification", "RULE 005 - ONLY from official genetic testing report"),
   ("medications.line_of_treatment", "RULE 006 - ONLY from MD notes"),
   ("medications.intent", "RULE 006 - ONLY from MD notes"),
   ("medications.regimen", "RULE 006 - ONLY from MD notes"),
   ("medications.drugs", "RULE 006 - ONLY from MD notes")]

/-- `source_map` dict of `create_audit_log`. -/
def source_map : List (String × String) :=
  [("timeline", "patient_record + md_notes + radiology"),
   ("staging", "md_note_visit2 + radiology + pathology"),
   ("pathology", "patient_001_pathology.txt"),
   ("comorbidities", "patient_001_md_note_visit1.txt (Visit 1 - within 3-6 months)"),
   ("germline", "patient_001_germline.txt"),
   ("medications", "patient_001_md_note_visit2.txt (MD notes only)")]

/-- Python's `(n/total*100):.1f` percentage rendering, on exact rationals:
tenths of a percent rounded to nearest (half up).  For `total = 31` and
`0 ≤ n ≤ 31` the exact value `n*1000/31` is never a half-integer number of
tenths (31 is prime and does not divide 2000·n unless 31 ∣ n) and lies more
than 0.016 tenths from every rounding boundary, far above the double
rounding error, so this agrees with CPython's binary-double formatting at
every input the program produces.  At `total = 0` this total function is
a collapsed error path: the source instead raises `ZeroDivisionError` at
the division `populated / len(audit["fields"])` before any formatting
happens, reachable only when the input yields zero audit entries.  A
well-formed record always yields 31 entries, so no statement here about
well-formed input depends on that corner, and no theorem below asserts
non-failure of `create_audit_log` on zero-field input. -/
def formatPercent (n total : Nat) : String :=
  let tenths := (n * 2000 + total) / (2 * total)
  toString (tenths / 10) ++ "." ++ toString (tenths % 10) ++ "%"

/-- Body of the per-field loop of `create_audit_log`: builds one
`audit["fields"]` entry from a section name, field name and value. -/
def mkAuditField (sec fieldName : String) (value : Option String) : AuditField :=
  let field_key := sec ++ "." ++ fieldName
  let rule := (field_rules.lookup field_key).getD "No specific rule"
  let source := (source_map.lookup sec).getD "Unknown source"
  match value with
  | none =>
    { field := field_key, value := none,
      status := "EMPTY - not found in documents", confidence := "N/A",
      source_document := source, rule_applied := rule }
  | some v =>
    { field := field_key, value := some v,
      status := "POPULATED", confidence := "HIGH - extracted from source document",
      source_document := source, rule_applied := rule }

/-- `create_audit_log(patient_id, extracted)` with the clock and the
`USE_MOCK_GEMINI` flag as explicit parameters, over the ordered section
association list of the extracted dict. -/
def create_audit_log (patient_id : String)
    (sections : List (String × List (String × Option String)))
    (now : String) (mock : Bool) : AuditLog :=
  let fields := sections.flatMap (fun s => s.2.map (fun p => mkAuditField s.1 p.1 p.2))
  let populated := (fields.filter (fun f => f.status == "POPULATED")).length
  let emptyCount := (fields.filter (fun f => pyIn "EMPTY" f.status)).length
  { patient_id := patient_id
    processed_at := now
    mode := if mock then "MOCK" else "LIVE"
    fields := fields
    summary :=
      { total_fields := fields.length
        populated := populated
        empty := emptyCount
        completion_rate := formatPercent populated fields.length } }

/-! ### Guardrail engine (src/agents/guardrails.py) -/

/-- `ALWAYS_REVIEW` — fields that always need human review. -/
def ALWAYS_REVIEW : List String :=
  ["staging.overall_stage",
   "staging.metastasis",
   "pathology.diagnosis",
   "germline.brca1_status",
   "germline.variant_found"]

/-- `EMPTY_BEATS_WRONG` — fields where empty is safer than wrong. -/
def EMPTY_BEATS_WRONG : List String :=
  ["staging.t_stage",
   "staging.n_stage",
   "staging.m_stage",
   "pathology.er_status",
   "pathology.her2_status",
   "medications.drugs"]

/-- Accepted visit-1 identifiers (`valid_sources` in
`check_comorbidity_source_rule`). -/
def valid_sources : List String := ["md_note_visit1", "visit1", "visit 1"]

/-- Forbidden source categories (`forbidden_sources` in
`check_medication_source_rule`). -/
def forbidden_sources : List String := ["pharmacy", "nursing", "dispensing", "prescription"]

/-- RULE 001 — comorbidities only from the visit-1 MD note. -/
def check_comorbidity_source_rule (fieldKey : String) (value : Option String)
    (source_document : String) : Bool × String :=
  match value with
  | none => (true, "Field is null — acceptable")
  | some _ =>
    let source_lower := pyLower source_document
    if valid_sources.any (fun s => pyIn s source_lower) then
      (true, "Source is MD note visit 1 — within 3-6 month window")
    else
      (false, "REJECTED — comorbidity source '" ++ source_document ++
        "' is outside 3-6 month window. Rule 001 violation.")

/-- RULE 006 — medications only from MD notes, never pharmacy records. -/
def check_medication_source_rule (fieldKey : String) (value : Option String)
    (source_document : String) : Bool × String :=
  match value with
  | none => (true, "Field is null — acceptable")
  | some _ =>
    let source_lower := pyLower source_document
    if forbidden_sources.any (fun s => pyIn s source_lower) then
      (false, "REJECTED — medication source '" ++ source_document ++
        "' is not an MD note. Rule 006 violation.")
    else
      (true, "Source is MD note — valid for medication abstraction")

/-- RULE 008 — diagnosis date must be the pathology confirmation date;
always passes, with an advisory reason. -/
def check_diagnosis_date_rule (value : Option String) : Bool × String :=
  match value with
  | none => (true, "Field is null — acceptable")
  | some _ =>
    (true, "Date of diagnosis accepted — verify manually it matches pathology report date")

/-- RULE 004 — staging must be confirmed by both imaging and MD note.
The three stage arguments are accepted but, as in the source, never read. -/
def check_staging_confirmation_rule (t_stage n_stage m_stage : Option String)
    (has_imaging : Bool) (has_md_note : Bool) : Bool × String :=
  if !has_imaging && !has_md_note then
    (false, "REJECTED — staging requires both imaging AND MD confirmation")
  else if !has_imaging then
    (false, "REJECTED — staging missing imaging confirmation")
  else if !has_md_note then
    (false, "REJECTED — staging missing MD documentation")
  else
    (true, "Staging confirmed by both imaging and MD note")

/-- One per-field verdict (`field_result` in `apply_guardrails`). -/
structure FieldResult where
  field : String
  value : Option String
  passed : Bool
  reason : String
  requires_human_review : Bool
deriving DecidableEq

structure GuardrailSummary where
  total_checked : Nat
  approved : Nat
  rejected : Nat
  human_review_required : Nat
  safe_to_auto_populate : Nat
  requires_manual_action : Nat
deriving DecidableEq

structure GuardrailReport where
  patient_id : String
  checked_at : String
  approved : List FieldResult
  rejected : List FieldResult
  human_review_required : List FieldResult
  guardrail_summary : GuardrailSummary
deriving DecidableEq

/-- The characters before the first `.` (all of them if there is none). -/
def takeUntilDot : List Char → List Char
  | [] => []
  | c :: cs => if c == '.' then [] else c :: takeUntilDot cs

/-- `field_key.split(".")[0]`: the segment before the first dot, the whole
key when it contains no dot. -/
def sectionOf (fieldKey : String) : String := ⟨takeUntilDot fieldKey.data⟩

/-- Body of the per-field loop of `apply_guardrails`: rule dispatch by
section/field, the empty-beats-wrong reason override, and the
always-review flag, producing one `FieldResult`.  The staging rule is
invoked exactly as in the source: with the record's T/N/M stages and the
two confirmation flags left at their default `true`. -/
def evaluateField (extracted : ExtractedRecord) (field_audit : AuditField) : FieldResult :=
  let field_key := field_audit.field
  let value := field_audit.value
  let source := field_audit.source_document
  let sec := sectionOf field_key
  let pr : Bool × String :=
    if sec == "comorbidities" && value.isSome then
      check_comorbidity_source_rule field_key value source
    else if sec == "medications" && value.isSome then
      check_medication_source_rule field_key value source
    else if field_key == "timeline.date_of_diagnosis" then
      check_diagnosis_date_rule value
    else if field_key == "staging.overall_stage" then
      check_staging_confirmation_rule extracted.staging.t_stage
        extracted.staging.n_stage extracted.staging.m_stage true true
    else
      (true, "Passed all guardrails")
  let reason :=
    if EMPTY_BEATS_WRONG.contains field_key && value.isNone then
      "Field empty — safer than potentially wrong value"
    else pr.2
  { field := field_key, value := value, passed := pr.1, reason := reason,
    requires_human_review := ALWAYS_REVIEW.contains field_key }

/-- `apply_guardrails(extracted, audit_fields)` with the clock as an
explicit `now` parameter (the source stamps `checked_at` from
`datetime.now()`).  The loop's three append-only lists are the three
order-preserving filters of the per-field results: a result with
`passed = false` goes to `rejected`; otherwise one with
`requires_human_review = true` goes to `human_review_required`;
otherwise to `approved`. -/
def apply_guardrails (extracted : ExtractedRecord) (audit_fields : List AuditField)
    (now : String) : GuardrailReport :=
  let results := audit_fields.map (evaluateField extracted)
  let approved := results.filter (fun r => r.passed && !r.requires_human_review)
  let rejected := results.filter (fun r => !r.passed)
  let hrr := results.filter (fun r => r.passed && r.requires_human_review)
  { patient_id := extracted.patient_id
    checked_at := now
    approved := approved
    rejected := rejected
    human_review_required := hrr
    guardrail_summary :=
      { total_checked := audit_fields.length
        approved := approved.length
        rejected := rejected.length
        human_review_required := hrr.length
        safe_to_auto_populate := approved.length
        requires_manual_action := rejected.length + hrr.length } }

/-! ### Concrete inputs used by witnesses -/

/-- A record with every leaf field absent. -/
def recNull : ExtractedRecord := { patient_id := "patient_001" }

/-- A minimal audit entry as the engine reads it (only `field`, `value`
and `source_document` are consulted by `apply_guardrails`). -/
def entryMk (k : String) (v : Option String) (src : String) : AuditField :=
  { field := k, value := v, status := "POPULATED",
    confidence := "HIGH - extracted from source document",
    source_document := src, rule_applied := "r" }

/-! ### Helper lemmas -/

theorem filter_three_length (l : List FieldResult) :
    (l.filter fun r => !r.passed).length
      + (l.filter fun r => r.passed && r.requires_human_review).length
      + (l.filter fun r => r.passed && !r.requires_human_review).length = l.length := by
  induction l with
  | nil => rfl
  | cons x t ih =>
    cases hp : x.passed <;> cases hr : x.requires_human_review <;>
      simp [List.filter_cons, hp, hr] <;> omega

theorem evaluateField_field (e : ExtractedRecord) (f : AuditField) :
    (evaluateField e f).field = f.field := rfl

theorem evaluateField_value (e : ExtractedRecord) (f : AuditField) :
    (evaluateField e f).value = f.value := rfl

theorem evaluateField_review (e : ExtractedRecord) (f : AuditField) :
    (evaluateField e f).requires_human_review = ALWAYS_REVIEW.contains f.field := rfl

/-- If an entry's section parses to `medications` and its value is
present, the engine evaluates exactly the medication source rule on it. -/
theorem medication_dispatch (e : ExtractedRecord) (entry : AuditField) (v : String)
    (hsec : sectionOf entry.field = "medications") (hv : entry.value = some v) :
    (evaluateField e entry).passed
        = (check_medication_source_rule entry.field entry.value entry.source_document).1
    ∧ (evaluateField e entry).reason
        = (check_medication_source_rule entry.field entry.value entry.source_document).2 := by
  have hc1 : (sectionOf entry.field == "comorbidities") = false := by rw [hsec]; decide
  have hc2 : (sectionOf entry.field == "medications") = true := by rw [hsec]; decide
  constructor <;> simp [evaluateField, hc1, hc2, hv]

/-- If an entry's section parses to `comorbidities` and its value is
present, the engine evaluates exactly the comorbidity source rule on it. -/
theorem comorbidity_dispatch (e : ExtractedRecord) (entry : AuditField) (v : String)
    (hsec : sectionOf entry.field = "comorbidities") (hv : entry.value = some v) :
    (evaluateField e entry).passed
        = (check_comorbidity_source_rule entry.field entry.value entry.source_document).1
    ∧ (evaluateField e entry).reason
        = (check_comorbidity_source_rule entry.field entry.value entry.source_document).2 := by
  have hc1 : (sectionOf entry.field == "comorbidities") = true := by rw [hsec]; decide
  constructor <;> simp [evaluateField, hc1, hv]

/-- An absent value never fails: every branch of the engine's rule
dispatch returns `passed = true` on `none`. -/
theorem evaluateField_none_passes (e : ExtractedRecord) (entry : AuditField)
    (h : entry.value = none) : (evaluateField e entry).passed = true := by
  simp only [evaluateField, h, Option.isSome_none, Bool.and_false]
  repeat' split
  all_goals simp_all [check_comorbidity_source_rule, check_medication_source_rule,
    check_diagnosis_date_rule, check_staging_confirmation_rule]

/-- A passing verdict of an entry from the input list lands outside the
rejected list. -/
theorem passing_not_rejected (e : ExtractedRecord) (entry : AuditField)
    (hp : (evaluateField e entry).passed = true) (a : List AuditField) (now : String) :
    evaluateField e entry ∉ (apply_guardrails e a now).rejected := by
  intro hmem
  simp only [apply_guardrails, List.mem_filter] at hmem
  rw [hp] at hmem
  simp at hmem

/-- A failing verdict of an entry from the input list lands in the
rejected list. -/
theorem failing_rejected (e : ExtractedRecord) (entry : AuditField)
    (hp : (evaluateField e entry).passed = false) (a : List AuditField) (now : String)
    (hmem : entry ∈ a) :
    evaluateField e entry ∈ (apply_guardrails e a now).rejected := by
  simp only [apply_guardrails, List.mem_filter]
  exact ⟨List.mem_map_of_mem _ hmem, by simp [hp]⟩

theorem mkAuditField_field (sec name : String) (v : Option String) :
    (mkAuditField sec name v).field = sec ++ "." ++ name := by cases v <;> rfl

theorem mkAuditField_value (sec name : String) (v : Option String) :
    (mkAuditField sec name v).value = v := by cases v <;> rfl

theorem mkAuditField_status (sec name : String) (v : Option String) :
    ((mkAuditField sec name v).status == "POPULATED") = v.isSome
    ∧ pyIn "EMPTY" (mkAuditField sec name v).status = v.isNone
    ∧ (v = none → (mkAuditField sec name v).status = "EMPTY - not found in documents"
        ∧ (mkAuditField sec name v).confidence = "N/A")
    ∧ (v ≠ none → (mkAuditField sec name v).status = "POPULATED"
        ∧ (mkAuditField sec name v).confidence = "HIGH - extracted from source document") := by
  cases v with
  | none => exact ⟨rfl, rfl, fun _ => ⟨rfl, rfl⟩, fun h => absurd rfl h⟩
  | some x => exact ⟨rfl, rfl, fun h => Option.noConfusion h, fun _ => ⟨rfl, rfl⟩⟩

/-- Every audit entry produced by `create_audit_log` is some
`mkAuditField` application. -/
theorem mem_create_audit_fields {pid now : String} {mock : Bool}
    {sections : List (String × List (String × Option String))} {f : AuditField}
    (hf : f ∈ (create_audit_log pid sections now mock).fields) :
    ∃ sec name v, f = mkAuditField sec name v := by
  simp only [create_audit_log, List.mem_flatMap, List.mem_map] at hf
  obtain ⟨s, hs, p, hp, rfl⟩ := hf
  exact ⟨s.1, p.1, p.2, rfl⟩

/-- Two filters by complementary predicates split a list's length. -/
theorem two_filter_length {α : Type} (p q : α → Bool) :
    ∀ l : List α, (∀ x ∈ l, q x = !p x) →
      (l.filter p).length + (l.filter q).length = l.length := by
  intro l
  induction l with
  | nil => intro _; rfl
  | cons x t ih =>
    intro h
    have hx := h x (List.mem_cons_self x t)
    have ht := ih (fun y hy => h y (List.mem_cons_of_mem x hy))
    cases hp : p x <;> rw [hp] at hx <;>
      simp [List.filter_cons, hp, hx] <;> omega

/-! ### Claims -/

/-- C1: for every input list of audit entries, `apply_guardrails` places
each verdict in exactly one of `rejected`, `human_review_required`,
`approved` (the three lists are disjoint and their lengths sum to the
number of audit entries — 31 entries for a full record, since
`create_audit_log` emits 31), with precedence
rejected > human_review_required > approved, and the summary satisfies
`safe_to_auto_populate = |approved|` and
`requires_manual_action = |rejected| + |human_review_required|`. -/
theorem apply_guardrails_partition (e : ExtractedRecord) (a : List AuditField)
    (now : String) :
    (apply_guardrails e a now).rejected.length
        + (apply_guardrails e a now).human_review_required.length
        + (apply_guardrails e a now).approved.length = a.length
    ∧ (∀ r ∈ (apply_guardrails e a now).rejected, r.passed = false)
    ∧ (∀ r ∈ (apply_guardrails e a now).human_review_required,
        r.passed = true ∧ r.requires_human_review = true)
    ∧ (∀ r ∈ (apply_guardrails e a now).approved,
        r.passed = true ∧ r.requires_human_review = false)
    ∧ (∀ r ∈ (apply_guardrails e a now).rejected,
        r ∉ (apply_guardrails e a now).human_review_required
          ∧ r ∉ (apply_guardrails e a now).approved)
    ∧ (∀ r ∈ (apply_guardrails e a now).human_review_required,
        r ∉ (apply_guardrails e a now).approved)
    ∧ (∀ f ∈ a, (evaluateField e f).passed = false →
        evaluateField e f ∈ (apply_guardrails e a now).rejected)
    ∧ (∀ f ∈ a, (evaluateField e f).passed = true →
        (evaluateField e f).requires_human_review = true →
        evaluateField e f ∈ (apply_guardrails e a now).human_review_required)
    ∧ (∀ f ∈ a, (evaluateField e f).passed = true →
        (evaluateField e f).requires_human_review = false →
        evaluateField e f ∈ (apply_guardrails e a now).approved)
    ∧ (apply_guardrails e a now).guardrail_summary.total_checked = a.length
    ∧ (apply_guardrails e a now).guardrail_summary.safe_to_auto_populate
        = (apply_guardrails e a now).approved.length
    ∧ (apply_guardrails e a now).guardrail_summary.requires_manual_action
        = (apply_guardrails e a now).rejected.length
          + (apply_guardrails e a now).human_review_required.length
    ∧ ∀ (r : ExtractedRecord) (pid t : String) (mock : Bool),
        (create_audit_log pid r.toSections t mock).fields.length = 31 := by
  refine ⟨?_, ?_, ?_, ?_, ?_, ?_, ?_, ?_, ?_, rfl, rfl, rfl, ?_⟩
  · have h := filter_three_length (a.map (evaluateField e))
    simpa [apply_guardrails] using h
  · intro r hr
    simp only [apply_guardrails, List.mem_filter] at hr
    simpa using hr.2
  · intro r hr
    simp only [apply_guardrails, List.mem_filter] at hr
    have := hr.2
    constructor <;> simp_all
  · intro r hr
    simp only [apply_guardrails, List.mem_filter] at hr
    have := hr.2
    constructor <;> simp_all
  · intro r hr
    simp only [apply_guardrails, List.mem_filter] at hr ⊢
    have h2 := hr.2
    constructor <;> intro hc <;> simp_all
  · intro r hr
    simp only [apply_guardrails, List.mem_filter] at hr ⊢
    have h2 := hr.2
    intro hc
    simp_all
  · intro f hf hp
    simp only [apply_guardrails, List.mem_filter]
    exact ⟨List.mem_map_of_mem _ hf, by simp [hp]⟩
  · intro f hf hp hr
    simp only [apply_guardrails, List.mem_filter]
    exact ⟨List.mem_map_of_mem _ hf, by simp [hp, hr]⟩
  · intro f hf hp hr
    simp only [apply_guardrails, List.mem_filter]
    exact ⟨List.mem_map_of_mem _ hf, by simp [hp, hr]⟩
  · intro r pid t mock
    rfl

/-- Witness for C1 at a concrete record and audit list. -/
theorem apply_guardrails_partition_witness :
    (apply_guardrails recNull [entryMk "comorbidities.hypertension" (some "Yes") "nursing_note"] "t").rejected.length
      + (apply_guardrails recNull [entryMk "comorbidities.hypertension" (some "Yes") "nursing_note"] "t").human_review_required.length
      + (apply_guardrails recNull [entryMk "comorbidities.hypertension" (some "Yes") "nursing_note"] "t").approved.length
      = 1
    ∧ (∀ r ∈ (apply_guardrails recNull [entryMk "comorbidities.hypertension" (some "Yes") "nursing_note"] "t").rejected,
        r.passed = false) := by
  have h := apply_guardrails_partition recNull
    [entryMk "comorbidities.hypertension" (some "Yes") "nursing_note"] "t"
  exact ⟨h.1, h.2.1⟩

/-- C2: an audit entry whose value is absent always yields a passing
verdict, whatever the field key and source category; in particular it is
never placed in the rejected list. -/
theorem absent_value_passes (e : ExtractedRecord) (entry : AuditField)
    (h : entry.value = none) :
    (evaluateField e entry).passed = true
    ∧ ∀ (a : List AuditField) (now : String),
        evaluateField e entry ∉ (apply_guardrails e a now).rejected := by
  have hp := evaluateField_none_passes e entry h
  exact ⟨hp, fun a now => passing_not_rejected e entry hp a now⟩

/-- Witness for C2: an absent comorbidity from a rejected-looking source
still passes. -/
theorem absent_value_passes_witness :
    (evaluateField recNull (entryMk "comorbidities.hypertension" none "nursing_note")).passed = true
    ∧ evaluateField recNull (entryMk "comorbidities.hypertension" none "nursing_note")
        ∉ (apply_guardrails recNull [entryMk "comorbidities.hypertension" none "nursing_note"] "t").rejected := by
  have h := absent_value_passes recNull (entryMk "comorbidities.hypertension" none "nursing_note") rfl
  exact ⟨h.1, h.2 _ "t"⟩

/-- C5: the staging rule rejects `staging.overall_stage` exactly when the
imaging-confirmation input or the physician-note-confirmation input is
false, with three pairwise-distinct reason strings (missing imaging only,
missing physician note only, missing both), and passes only when both
confirmation inputs are true; inside `apply_guardrails` the verdict for
`staging.overall_stage` is exactly this rule applied at the record's
T/N/M stages with both confirmation inputs fixed at `true`. -/
theorem staging_confirmation_spec (t n m : Option String) (b₁ b₂ : Bool) :
    ((check_staging_confirmation_rule t n m b₁ b₂).1 = true ↔ b₁ = true ∧ b₂ = true)
    ∧ (b₁ = false → b₂ = true →
        (check_staging_confirmation_rule t n m b₁ b₂).2
          = "REJECTED — staging missing imaging confirmation")
    ∧ (b₁ = true → b₂ = false →
        (check_staging_confirmation_rule t n m b₁ b₂).2
          = "REJECTED — staging missing MD documentation")
    ∧ (b₁ = false → b₂ = false →
        (check_staging_confirmation_rule t n m b₁ b₂).2
          = "REJECTED — staging requires both imaging AND MD confirmation")
    ∧ ("REJECTED — staging missing imaging confirmation"
          ≠ "REJECTED — staging missing MD documentation"
        ∧ "REJECTED — staging missing imaging confirmation"
          ≠ "REJECTED — staging requires both imaging AND MD confirmation"
        ∧ "REJECTED — staging missing MD documentation"
          ≠ "REJECTED — staging requires both imaging AND MD confirmation")
    ∧ ∀ (e : ExtractedRecord) (v : Option String) (st cf src rl : String),
        ((evaluateField e
            { field := "staging.overall_stage", value := v, status := st,
              confidence := cf, source_document := src, rule_applied := rl }).passed,
         (evaluateField e
            { field := "staging.overall_stage", value := v, status := st,
              confidence := cf, source_document := src, rule_applied := rl }).reason)
          = check_staging_confirmation_rule e.staging.t_stage e.staging.n_stage
              e.staging.m_stage true true := by
  refine ⟨?_, ?_, ?_, ?_, by decide, ?_⟩
  · cases b₁ <;> cases b₂ <;> simp [check_staging_confirmation_rule]
  · intro h1 h2; subst h1; subst h2; rfl
  · intro h1 h2; subst h1; subst h2; rfl
  · intro h1 h2; subst h1; subst h2; rfl
  · intro e v st cf src rl
    rfl

/-- Witness for C5 at concrete confirmation inputs. -/
theorem staging_confirmation_spec_witness :
    (check_staging_confirmation_rule none none none false true).1 = false
    ∧ (check_staging_confirmation_rule none none none false true).2
        = "REJECTED — staging missing imaging confirmation" := by
  have h := staging_confirmation_spec none none none false true
  refine ⟨?_, h.2.1 rfl rfl⟩
  cases hp : (check_staging_confirmation_rule none none none false true).1
  · rfl
  · exact absurd (h.1.mp hp).1 (by decide)

/-- C6: for a `medications.*` entry with a present value, the verdict
fails exactly when the lower-cased source category contains one of the
forbidden substrings (pharmacy, nursing, dispensing, prescription); on
failure the reason cites Rule 006 and names the offending source, and the
verdict is placed in the rejected list; a source matching no forbidden
substring passes (blocklist, not allowlist). -/
theorem medication_provenance_spec (e : ExtractedRecord) (entry : AuditField) (v : String)
    (hsec : sectionOf entry.field = "medications") (hv : entry.value = some v) :
    ((evaluateField e entry).passed = false
        ↔ forbidden_sources.any (fun s => pyIn s (pyLower entry.source_document)) = true)
    ∧ ((evaluateField e entry).passed = false →
        (evaluateField e entry).reason
          = "REJECTED — medication source '" ++ entry.source_document
              ++ "' is not an MD note. Rule 006 violation.")
    ∧ ((evaluateField e entry).passed, (evaluateField e entry).reason)
        = check_medication_source_rule entry.field entry.value entry.source_document
    ∧ ∀ (a : List AuditField) (now : String), entry ∈ a →
        (evaluateField e entry).passed = false →
        evaluateField e entry ∈ (apply_guardrails e a now).rejected := by
  obtain ⟨hpassed, hreason⟩ := medication_dispatch e entry v hsec hv
  refine ⟨?_, ?_, by rw [hpassed, hreason], fun a now hmem hpf => failing_rejected e entry hpf a now hmem⟩
  · cases hany : forbidden_sources.any (fun s => pyIn s (pyLower entry.source_document)) <;>
      simp [hpassed, check_medication_source_rule, hv, hany]
  · intro hpf
    cases hany : forbidden_sources.any (fun s => pyIn s (pyLower entry.source_document))
    · rw [hpassed] at hpf
      simp [check_medication_source_rule, hv, hany] at hpf
    · rw [hreason]
      simp [check_medication_source_rule, hv, hany]

/-- Witness for C6: an empty-string drug list sourced from a pharmacy
dispensing log is rejected with the Rule 006 reason. -/
theorem medication_provenance_spec_witness :
    (evaluateField recNull (entryMk "medications.drugs" (some "") "pharmacy_dispensing_log")).passed = false
    ∧ (evaluateField recNull (entryMk "medications.drugs" (some "") "pharmacy_dispensing_log")).reason
        = "REJECTED — medication source 'pharmacy_dispensing_log' is not an MD note. Rule 006 violation."
    ∧ (evaluateField recNull (entryMk "medications.drugs" (some "Tamoxifen") "md_note_visit2")).passed = true := by
  have h := medication_provenance_spec recNull
    (entryMk "medications.drugs" (some "") "pharmacy_dispensing_log") "" (by decide) rfl
  have h2 := medication_provenance_spec recNull
    (entryMk "medications.drugs" (some "Tamoxifen") "md_note_visit2") "Tamoxifen" (by decide) rfl
  have hpf : (evaluateField recNull
      (entryMk "medications.drugs" (some "") "pharmacy_dispensing_log")).passed = false :=
    h.1.mpr (by decide)
  have hp2 : (evaluateField recNull
      (entryMk "medications.drugs" (some "Tamoxifen") "md_note_visit2")).passed = true := by
    cases hp : (evaluateField recNull
        (entryMk "medications.drugs" (some "Tamoxifen") "md_note_visit2")).passed
    · exact absurd (h2.1.mp hp) (by decide)
    · rfl
  exact ⟨hpf, (h.2.1 hpf).trans (by decide), hp2⟩

/-- C7: for a `comorbidities.*` entry with a present value, the verdict
passes exactly when the lower-cased source category contains one of the
accepted visit-1 identifiers; otherwise the entry is rejected with a
reason citing Rule 001 and naming the offending source, and that reason
comes from the comorbidity rule (the entry's pair of outcomes is the
comorbidity rule's result, not the medication rule's). -/
theorem comorbidity_provenance_spec (e : ExtractedRecord) (entry : AuditField) (v : String)
    (hsec : sectionOf entry.field = "comorbidities") (hv : entry.value = some v) :
    ((evaluateField e entry).passed = true
        ↔ valid_sources.any (fun s => pyIn s (pyLower entry.source_document)) = true)
    ∧ ((evaluateField e entry).passed = false →
        (evaluateField e entry).reason
          = "REJECTED — comorbidity source '" ++ entry.source_document
              ++ "' is outside 3-6 month window. Rule 001 violation.")
    ∧ ((evaluateField e entry).passed, (evaluateField e entry).reason)
        = check_comorbidity_source_rule entry.field entry.value entry.source_document
    ∧ ∀ (a : List AuditField) (now : String), entry ∈ a →
        (evaluateField e entry).passed = false →
        evaluateField e entry ∈ (apply_guardrails e a now).rejected := by
  obtain ⟨hpassed, hreason⟩ := comorbidity_dispatch e entry v hsec hv
  refine ⟨?_, ?_, by rw [hpassed, hreason], fun a now hmem hpf => failing_rejected e entry hpf a now hmem⟩
  · cases hany : valid_sources.any (fun s => pyIn s (pyLower entry.source_document)) <;>
      simp [hpassed, check_comorbidity_source_rule, hv, hany]
  · intro hpf
    cases hany : valid_sources.any (fun s => pyIn s (pyLower entry.source_document))
    · rw [hreason]
      simp [check_comorbidity_source_rule, hv, hany]
    · rw [hpassed] at hpf
      simp [check_comorbidity_source_rule, hv, hany] at hpf

/-- Witness for C7: comorbidity values sourced from `nursing_note`,
`visit2` and `follow-up` are rejected, `nursing_note` with the exact
Rule 001 reason; a `md_note_visit1` source passes. -/
theorem comorbidity_provenance_spec_witness :
    (evaluateField recNull (entryMk "comorbidities.hypertension" (some "Yes") "nursing_note")).passed = false
    ∧ (evaluateField recNull (entryMk "comorbidities.hypertension" (some "Yes") "visit2")).passed = false
    ∧ (evaluateField recNull (entryMk "comorbidities.hypertension" (some "Yes") "follow-up")).passed = false
    ∧ (evaluateField recNull (entryMk "comorbidities.hypertension" (some "Yes") "nursing_note")).reason
        = "REJECTED — comorbidity source 'nursing_note' is outside 3-6 month window. Rule 001 violation."
    ∧ (evaluateField recNull (entryMk "comorbidities.hypertension" (some "Yes") "md_note_visit1")).passed = true := by
  have h1 := comorbidity_provenance_spec recNull
    (entryMk "comorbidities.hypertension" (some "Yes") "nursing_note") "Yes" (by decide) rfl
  have h2 := comorbidity_provenance_spec recNull
    (entryMk "comorbidities.hypertension" (some "Yes") "visit2") "Yes" (by decide) rfl
  have h3 := comorbidity_provenance_spec recNull
    (entryMk "comorbidities.hypertension" (some "Yes") "follow-up") "Yes" (by decide) rfl
  have h4 := comorbidity_provenance_spec recNull
    (entryMk "comorbidities.hypertension" (some "Yes") "md_note_visit1") "Yes" (by decide) rfl
  have hp1 : (evaluateField recNull
      (entryMk "comorbidities.hypertension" (some "Yes") "nursing_note")).passed = false := by
    cases hp : (evaluateField recNull
        (entryMk "comorbidities.hypertension" (some "Yes") "nursing_note")).passed
    · rfl
    · exact absurd (h1.1.mp hp) (by decide)
  have hp2 : (evaluateField recNull
      (entryMk "comorbidities.hypertension" (some "Yes") "visit2")).passed = false := by
    cases hp : (evaluateField recNull
        (entryMk "comorbidities.hypertension" (some "Yes") "visit2")).passed
    · rfl
    · exact absurd (h2.1.mp hp) (by decide)
  have hp3 : (evaluateField recNull
      (entryMk "comorbidities.hypertension" (some "Yes") "follow-up")).passed = false := by
    cases hp : (evaluateField recNull
        (entryMk "comorbidities.hypertension" (some "Yes") "follow-up")).passed
    · rfl
    · exact absurd (h3.1.mp hp) (by decide)
  exact ⟨hp1, hp2, hp3, (h1.2.1 hp1).trans (by decide), h4.1.mpr (by decide)⟩

/-- C4 counterexample: the report stamps `checked_at` from the wall
clock (`datetime.now()` in the source), so two runs of the engine on the
same record and audit list at different times are not bit-identical. -/
theorem apply_guardrails_not_time_independent :
    apply_guardrails recNull [] "2024-01-01 00:00:00"
      ≠ apply_guardrails recNull [] "2024-01-01 00:00:01" := by
  intro h
  have := congrArg GuardrailReport.checked_at h
  simp [apply_guardrails] at this

/-- C4 amended: apart from the `checked_at` timestamp, the report is a
deterministic function of the extracted record and the audit-entry list:
`patient_id`, the three partitions and the whole summary are identical
across runs at different times. -/
theorem apply_guardrails_deterministic_modulo_timestamp
    (e : ExtractedRecord) (a : List AuditField) (t₁ t₂ : String) :
    (apply_guardrails e a t₁).patient_id = (apply_guardrails e a t₂).patient_id
    ∧ (apply_guardrails e a t₁).approved = (apply_guardrails e a t₂).approved
    ∧ (apply_guardrails e a t₁).rejected = (apply_guardrails e a t₂).rejected
    ∧ (apply_guardrails e a t₁).human_review_required
        = (apply_guardrails e a t₂).human_review_required
    ∧ (apply_guardrails e a t₁).guardrail_summary
        = (apply_guardrails e a t₂).guardrail_summary :=
  ⟨rfl, rfl, rfl, rfl, rfl⟩

/-- C8: the five `ALWAYS_REVIEW` fields (overall stage, metastasis,
pathology diagnosis, BRCA1 status, variant found) — and no other field —
carry `requires_human_review = true` in their verdict regardless of rule
outcome, and such a field's verdict lands in `human_review_required`
whenever its rule passed, in `rejected` when it failed. -/
theorem always_review_spec (e : ExtractedRecord) (a : List AuditField) (now : String) :
    ALWAYS_REVIEW = ["staging.overall_stage", "staging.metastasis", "pathology.diagnosis",
        "germline.brca1_status", "germline.variant_found"]
    ∧ (∀ entry : AuditField,
        ((evaluateField e entry).requires_human_review = true ↔ entry.field ∈ ALWAYS_REVIEW))
    ∧ (∀ entry ∈ a, entry.field ∈ ALWAYS_REVIEW → (evaluateField e entry).passed = true →
        evaluateField e entry ∈ (apply_guardrails e a now).human_review_required)
    ∧ (∀ entry ∈ a, (evaluateField e entry).passed = false →
        evaluateField e entry ∈ (apply_guardrails e a now).rejected)
    ∧ (∀ r ∈ (apply_guardrails e a now).human_review_required,
        r.requires_human_review = true ∧ r.field ∈ ALWAYS_REVIEW) := by
  have hrev : ∀ entry : AuditField,
      ((evaluateField e entry).requires_human_review = true ↔ entry.field ∈ ALWAYS_REVIEW) := by
    intro entry
    rw [evaluateField_review]
    simp
  refine ⟨rfl, hrev, ?_, ?_, ?_⟩
  · intro entry hmem har hp
    simp only [apply_guardrails, List.mem_filter]
    refine ⟨List.mem_map_of_mem _ hmem, ?_⟩
    have hr := (hrev entry).mpr har
    simp [hp, hr]
  · intro entry hmem hp
    exact failing_rejected e entry hp a now hmem
  · intro r hr
    simp only [apply_guardrails, List.mem_filter, List.mem_map] at hr
    obtain ⟨⟨f, hf, rfl⟩, hcond⟩ := hr
    have hrt : (evaluateField e f).requires_human_review = true := by
      revert hcond
      cases (evaluateField e f).passed <;>
        cases hc : (evaluateField e f).requires_human_review <;> simp [hc]
    exact ⟨hrt, (hrev f).mp hrt⟩

/-- Witness for C8: a present pathology diagnosis passes its (default)
rule and is routed to human review. -/
theorem always_review_spec_witness :
    (evaluateField recNull (entryMk "pathology.diagnosis" (some "IDC") "pathology_report")).requires_human_review = true
    ∧ evaluateField recNull (entryMk "pathology.diagnosis" (some "IDC") "pathology_report")
        ∈ (apply_guardrails recNull
            [entryMk "pathology.diagnosis" (some "IDC") "pathology_report"] "t").human_review_required := by
  have h := always_review_spec recNull
    [entryMk "pathology.diagnosis" (some "IDC") "pathology_report"] "t"
  exact ⟨(h.2.1 _).mpr (by decide), h.2.2.1 _ (List.Mem.head _) (by decide) rfl⟩

/-- C9: on any extracted record, `create_audit_log` emits exactly 31
audit entries in the record's field order; an entry's status is EMPTY
exactly when its value is absent and POPULATED otherwise, its confidence
is HIGH exactly when populated and N/A when empty; and the summary's
completion rate is populated/31 rendered as a percentage with one decimal
place, where populated counts the present values. -/
theorem create_audit_log_spec (r : ExtractedRecord) (pid now : String) (mock : Bool) :
    (create_audit_log pid r.toSections now mock).fields.length = 31
    ∧ (create_audit_log pid r.toSections now mock).fields.map (fun f => f.field)
        = ["timeline.date_of_diagnosis", "timeline.date_of_last_visit",
           "timeline.date_of_last_scan", "timeline.date_of_death",
           "staging.primary_cancer", "staging.laterality", "staging.t_stage",
           "staging.n_stage", "staging.m_stage", "staging.overall_stage",
           "staging.metastasis", "pathology.specimen_site", "pathology.quadrant",
           "pathology.er_status", "pathology.pr_status", "pathology.her2_status",
           "pathology.ki67_percentage", "pathology.grade", "pathology.diagnosis",
           "comorbidities.hypertension", "comorbidities.diabetes",
           "comorbidities.hypothyroidism", "comorbidities.other",
           "germline.brca1_status", "germline.brca2_status", "germline.variant_found",
           "germline.classification", "medications.line_of_treatment",
           "medications.intent", "medications.regimen", "medications.drugs"]
    ∧ (∀ f ∈ (create_audit_log pid r.toSections now mock).fields,
        (f.value = none → f.status = "EMPTY - not found in documents" ∧ f.confidence = "N/A")
        ∧ (f.value ≠ none → f.status = "POPULATED"
            ∧ f.confidence = "HIGH - extracted from source document"))
    ∧ (create_audit_log pid r.toSections now mock).summary.total_fields = 31
    ∧ (create_audit_log pid r.toSections now mock).summary.populated
        = ((create_audit_log pid r.toSections now mock).fields.filter
            (fun f => f.value.isSome)).length
    ∧ (create_audit_log pid r.toSections now mock).summary.populated
        + (create_audit_log pid r.toSections now mock).summary.empty = 31
    ∧ (create_audit_log pid r.toSections now mock).summary.completion_rate
        = formatPercent (create_audit_log pid r.toSections now mock).summary.populated 31 := by
  refine ⟨rfl, ?_, ?_, rfl, ?_, ?_, rfl⟩
  · simp [create_audit_log, ExtractedRecord.toSections, mkAuditField_field]
  · intro f hf
    obtain ⟨s, n, v, rfl⟩ := mem_create_audit_fields hf
    have h := mkAuditField_status s n v
    constructor
    · intro hval
      rw [mkAuditField_value] at hval
      exact h.2.2.1 hval
    · intro hval
      rw [mkAuditField_value] at hval
      exact h.2.2.2 hval
  · have hcong : ((create_audit_log pid r.toSections now mock).fields.filter
          (fun f => f.status == "POPULATED"))
        = ((create_audit_log pid r.toSections now mock).fields.filter
          (fun f => f.value.isSome)) := by
      apply List.filter_congr
      intro f hf
      obtain ⟨s, n, v, rfl⟩ := mem_create_audit_fields hf
      rw [mkAuditField_value]
      exact (mkAuditField_status s n v).1
    exact congrArg List.length hcong
  · have hcomp : ∀ f ∈ (create_audit_log pid r.toSections now mock).fields,
        pyIn "EMPTY" f.status = !(f.status == "POPULATED") := by
      intro f hf
      obtain ⟨s, n, v, rfl⟩ := mem_create_audit_fields hf
      cases v <;> rfl
    have h2 := two_filter_length (fun f => f.status == "POPULATED")
      (fun f => pyIn "EMPTY" f.status)
      (create_audit_log pid r.toSections now mock).fields hcomp
    exact h2.trans (rfl)

/-- Witness for C9 at the all-absent record. -/
theorem create_audit_log_spec_witness :
    (create_audit_log "patient_001" recNull.toSections "2024-01-01" true).fields.length = 31
    ∧ (mkAuditField "timeline" "date_of_diagnosis" none).status
        = "EMPTY - not found in documents" := by
  have h := create_audit_log_spec recNull "patient_001" "2024-01-01" true
  refine ⟨h.1, ?_⟩
  have hf : mkAuditField "timeline" "date_of_diagnosis" none
      ∈ (create_audit_log "patient_001" recNull.toSections "2024-01-01" true).fields :=
    List.Mem.head _
  exact ((h.2.2.1 _ hf).1 rfl).1

/-- C10: an empty-string value is treated as present by both components:
`create_audit_log` marks it POPULATED with HIGH confidence, and the
engine evaluates the section's provenance rule on it — an empty-string
medication from a forbidden source, or an empty-string comorbidity from a
non-visit-1 source, is rejected, while an absent (`none`) value always
passes. -/
theorem empty_string_is_present (pid now : String) (mock : Bool)
    (sections : List (String × List (String × Option String))) :
    (∀ f ∈ (create_audit_log pid sections now mock).fields, f.value = some "" →
        f.status = "POPULATED" ∧ f.confidence = "HIGH - extracted from source document")
    ∧ (∀ (e : ExtractedRecord) (entry : AuditField), entry.value = some "" →
        sectionOf entry.field = "medications" →
        forbidden_sources.any (fun s => pyIn s (pyLower entry.source_document)) = true →
        (evaluateField e entry).passed = false)
    ∧ (∀ (e : ExtractedRecord) (entry : AuditField), entry.value = some "" →
        sectionOf entry.field = "comorbidities" →
        valid_sources.any (fun s => pyIn s (pyLower entry.source_document)) = false →
        (evaluateField e entry).passed = false)
    ∧ (∀ (e : ExtractedRecord) (entry : AuditField), entry.value = none →
        (evaluateField e entry).passed = true) := by
  refine ⟨?_, ?_, ?_, fun e entry h => evaluateField_none_passes e entry h⟩
  · intro f hf hv
    obtain ⟨s, n, v, rfl⟩ := mem_create_audit_fields hf
    rw [mkAuditField_value] at hv
    exact (mkAuditField_status s n v).2.2.2 (by rw [hv]; exact fun hc => Option.noConfusion hc)
  · intro e entry hv hsec hany
    have hd := (medication_dispatch e entry "" hsec hv).1
    rw [hd]
    simp [check_medication_source_rule, hv, hany]
  · intro e entry hv hsec hany
    have hd := (comorbidity_dispatch e entry "" hsec hv).1
    rw [hd]
    simp [check_comorbidity_source_rule, hv, hany]

/-- Witness for C10: concrete empty-string and absent values. -/
theorem empty_string_is_present_witness :
    (mkAuditField "medications" "drugs" (some "")).status = "POPULATED"
    ∧ (evaluateField recNull (entryMk "medications.drugs" (some "") "pharmacy_dispensing_log")).passed = false
    ∧ (evaluateField recNull (entryMk "comorbidities.other" (some "") "follow-up")).passed = false
    ∧ (evaluateField recNull (entryMk "medications.drugs" none "pharmacy_dispensing_log")).passed = true := by
  have h := empty_string_is_present "p" "t" true [("medications", [("drugs", some "")])]
  refine ⟨?_, ?_, ?_, ?_⟩
  · exact ((h.1 _ (List.Mem.head _)) rfl).1
  · exact h.2.1 recNull _ rfl (by decide) (by decide)
  · exact h.2.2.1 recNull _ rfl (by decide) (by decide)
  · exact h.2.2.2 recNull _ rfl

/-- C3 counterexample: a field key absent from the catalog does NOT fail
loudly — `create_audit_log` silently emits a normal entry carrying the
defaults "No specific rule" and "Unknown source" (the `.get` fallbacks in
the source), and `apply_guardrails` silently approves the unrecognized
field under the default pass rule. -/
theorem unknown_field_silently_defaults :
    (create_audit_log "p" [("lab_results", [("wbc", some "9.1")])] "t" false).fields
      = [{ field := "lab_results.wbc", value := some "9.1", status := "POPULATED",
           confidence := "HIGH - extracted from source document",
           source_document := "Unknown source", rule_applied := "No specific rule" }]
    ∧ (apply_guardrails recNull [entryMk "lab_results.wbc" (some "9.1") "chem_panel"] "t").approved.length = 1
    ∧ (apply_guardrails recNull [entryMk "lab_results.wbc" (some "9.1") "chem_panel"] "t").rejected.length = 0 := by
  refine ⟨?_, ?_, ?_⟩ <;> rfl

/-- C3 amended: on a field key with no catalog entry (no `field_rules`
binding, no `source_map` binding for its section) the evaluation does
not fail loudly: the audit builder continues with the default rule
"No specific rule" and default source "Unknown source", and the engine
treats a field matching no rule's section as passing by default.  For
every well-formed input no failure occurs: the record yields its 31 leaf
fields, so the source's one fatal path — the `ZeroDivisionError` of the
completion-rate division on a zero-field input (logger.py:102), a corner
independent of catalog membership — is not reached. -/
theorem unknown_field_default_behavior (pid now : String) (mock : Bool)
    (sec name : String) (v : Option String)
    (hrule : field_rules.lookup (sec ++ "." ++ name) = none)
    (hsrc : source_map.lookup sec = none) :
    ((mkAuditField sec name v).rule_applied = "No specific rule"
      ∧ (mkAuditField sec name v).source_document = "Unknown source"
      ∧ (create_audit_log pid [(sec, [(name, v)])] now mock).fields = [mkAuditField sec name v])
    ∧ (∀ (e : ExtractedRecord) (entry : AuditField),
        sectionOf entry.field ≠ "comorbidities" →
        sectionOf entry.field ≠ "medications" →
        entry.field ≠ "timeline.date_of_diagnosis" →
        entry.field ≠ "staging.overall_stage" →
        (evaluateField e entry).passed = true)
    ∧ ∀ (r : ExtractedRecord) (pid2 t : String) (mock2 : Bool),
        (create_audit_log pid2 r.toSections t mock2).summary.total_fields = 31
        ∧ (create_audit_log pid2 r.toSections t mock2).summary.total_fields ≠ 0 := by
  refine ⟨⟨?_, ?_, rfl⟩, ?_, fun r pid2 t mock2 => ⟨rfl, ((by decide : (31 : Nat) ≠ 0))⟩⟩
  · cases v <;> simp [mkAuditField, hrule]
  · cases v <;> simp [mkAuditField, hsrc]
  · intro e entry h1 h2 h3 h4
    have hb1 : (sectionOf entry.field == "comorbidities") = false := beq_eq_false_iff_ne.mpr h1
    have hb2 : (sectionOf entry.field == "medications") = false := beq_eq_false_iff_ne.mpr h2
    have hb3 : (entry.field == "timeline.date_of_diagnosis") = false := beq_eq_false_iff_ne.mpr h3
    have hb4 : (entry.field == "staging.overall_stage") = false := beq_eq_false_iff_ne.mpr h4
    simp [evaluateField, hb1, hb2, hb3, hb4]

/-- Witness for C3's amended statement at a concrete uncataloged field
and at the all-absent well-formed record. -/
theorem unknown_field_default_behavior_witness :
    (mkAuditField "lab_results" "wbc" (some "9.1")).rule_applied = "No specific rule"
    ∧ (mkAuditField "lab_results" "wbc" (some "9.1")).source_document = "Unknown source"
    ∧ (evaluateField recNull (entryMk "lab_results.wbc" (some "9.1") "chem_panel")).passed = true
    ∧ (create_audit_log "patient_001" recNull.toSections "t" false).summary.total_fields = 31 := by
  have h := unknown_field_default_behavior "p" "t" false "lab_results" "wbc" (some "9.1")
    (by decide) (by decide)
  exact ⟨h.1.1, h.1.2.1, h.2.1 recNull _ (by decide) (by decide) (by decide) (by decide),
    (h.2.2 recNull "patient_001" "t" false).1⟩

end ClinicalDataAgent
